import Mathlib

set_option maxRecDepth 16000

/-!
Verification of the nostr-auth-middleware challenge-response protocol.

This file shallowly embeds the data model and the operations of the
repository (src/src/services/nostr.service.ts, src/src/validators,
src/src/utils) in Lean 4 and proves, or refutes, the frozen claims about
the natural-language specification.

External cryptographic primitives (sha256, Schnorr signature
verification, event signing) are delegated to libraries by the source
code; they appear here as explicit function parameters.  Fallible
external calls are modelled as values of `Except String α`; a thrown
exception is the `Except.error` case.  JavaScript truthiness of a string
field is modelled by comparison with the empty string, and of a numeric
field by comparison with 0.
-/

namespace NostrAuth

/-- A Nostr event, from the NostrEvent type of the repository
(id, pubkey, created_at, kind, tags, content, sig).  The tags field is a
list of string lists, as in the source (string[][]). -/
structure NostrEvent where
  id : String
  pubkey : String
  created_at : Int
  kind : Int
  tags : List (List String)
  content : String
  sig : String
deriving Repr, DecidableEq

/-- The decoded content of a JSON Web Token as issued by this system.
Modelled from the spec: the external jsonwebtoken library is out of
scope of the source tree; per the spec the token carries the minimal
claims pubkey, iat (issued-at) and exp, is bound to the signing secret,
and verification with the same secret returns the payload while a token
past exp is rejected.  The binding to the secret produced by the HMAC
signature is modelled by recording the secret itself in `secretTag`. -/
structure Jwt where
  pubkey : String
  iat : Int
  exp : Int
  secretTag : String
deriving Repr, DecidableEq

/-- A user profile, from the NostrProfile type of the repository
(optional fields other than pubkey and name are not used by the
operations modelled here). -/
structure NostrProfile where
  pubkey : String
  name : Option String
deriving Repr, DecidableEq

/-- Result of a verification operation, from the VerificationResult type
of the repository.  The source has two variants of this interface
(one with an `error` field, one with `message`, `token` and `profile`);
all optional fields are collected here. -/
structure VerificationResult where
  success : Bool
  error : Option String
  message : Option String
  pubkey : Option String
  token : Option Jwt
  profile : Option NostrProfile
deriving Repr, DecidableEq

/-- Failure result carrying an `error` string, as returned by
event.validator.ts and the Supabase-backed service. -/
def VerificationResult.failE (e : String) : VerificationResult :=
  ⟨false, some e, none, none, none, none⟩

/-- Failure result carrying a `message` string, as returned by the
in-memory service. -/
def VerificationResult.failM (m : String) : VerificationResult :=
  ⟨false, none, some m, none, none, none⟩

/-- Success result carrying the pubkey, as returned by
event.validator.ts validateEvent and the Supabase-backed service. -/
def VerificationResult.okPub (p : String) : VerificationResult :=
  ⟨true, none, none, some p, none, none⟩

/-- Whether a character is a lowercase hexadecimal digit, the character
class [0-9a-f] of the validation regexes. -/
def isHexDigit (c : Char) : Bool :=
  (48 ≤ c.toNat && c.toNat ≤ 57) || (97 ≤ c.toNat && c.toNat ≤ 102)

/-- Model of the test of the regex [0-9a-f] repeated exactly n times,
anchored at both ends: the string has length n and every character is a
lowercase hex digit. -/
def isHexString (n : Nat) (s : String) : Bool :=
  s.length == n && s.data.all isHexDigit

namespace CryptoUtils

/-- JSON string escaping for the characters relevant to canonical event
serialization (quote, backslash and the common control characters; the
remaining control characters of JSON.stringify are not reachable from
the inputs considered here). -/
def jsonEscapeChar (c : Char) : String :=
  if c = '"' then "\\\""
  else if c = '\\' then "\\\\"
  else if c.toNat = 10 then "\\n"
  else if c.toNat = 13 then "\\r"
  else if c.toNat = 9 then "\\t"
  else String.mk [c]

/-- JSON rendering of a string literal. -/
def jsonStr (s : String) : String :=
  "\"" ++ String.join (s.data.map jsonEscapeChar) ++ "\""

/-- JSON rendering of a list of strings. -/
def jsonStrList (ts : List String) : String :=
  "[" ++ String.intercalate "," (ts.map jsonStr) ++ "]"

/-- JSON rendering of the tags array. -/
def jsonTags (tags : List (List String)) : String :=
  "[" ++ String.intercalate "," (tags.map jsonStrList) ++ "]"

/-- serializeEvent from src/src/utils/crypto.utils.ts: the canonical
JSON array [0, pubkey, created_at, kind, tags, content] that is hashed
to form the event id (NIP-01). -/
def serializeEvent (e : NostrEvent) : String :=
  "[0," ++ jsonStr e.pubkey ++ "," ++ toString e.created_at ++ ","
    ++ toString e.kind ++ "," ++ jsonTags e.tags ++ "," ++ jsonStr e.content ++ "]"

/-- generateEventHash from src/src/utils/crypto.utils.ts: delegates to
the external getEventHash, i.e. sha256 (abstracted as the parameter
`sha`) of the canonical serialization. -/
def generateEventHash (sha : String → String) (e : NostrEvent) : String :=
  sha (serializeEvent e)

/-- Rendering of one byte as two lowercase hex digits. -/
def hexDigitChar (n : Nat) : Char :=
  if n < 10 then Char.ofNat (48 + n) else Char.ofNat (97 + (n - 10))

/-- Two-character lowercase hex rendering of a byte. -/
def byteToHexChars (b : Nat) : List Char :=
  [hexDigitChar (b / 16 % 16), hexDigitChar (b % 16)]

/-- Buffer hex rendering of a byte list, as in
crypto.randomBytes(32).toString(hex). -/
def bytesToHexChars : List Nat → List Char
  | [] => []
  | b :: bs => byteToHexChars b ++ bytesToHexChars bs

/-- Buffer hex rendering of a byte list, as a string. -/
def bytesToHex (bs : List Nat) : String :=
  String.mk (bytesToHexChars bs)

/-- generateChallengeServer from src/src/utils/crypto.utils.ts: builds a
kind-22242 event for the client pubkey whose challenge tag holds 32
random bytes rendered as hex, sets the id to the recomputed event hash
and signs it with the server private key.  The randomness, sha256,
public-key derivation and signing primitives are parameters. -/
def generateChallengeServer (sha : String → String)
    (signE : NostrEvent → String → String) (getPub : String → String)
    (serverPrivateKey clientPubkey : String) (randomBytes32 : List Nat)
    (now : Int) : NostrEvent :=
  let randomValue := bytesToHex randomBytes32
  let ev : NostrEvent :=
    ⟨"", getPub serverPrivateKey, now, 22242,
      [["p", clientPubkey], ["relay", "wss://relay.damus.io"], ["challenge", randomValue]],
      "", ""⟩
  let ev2 : NostrEvent :=
    ⟨generateEventHash sha ev, ev.pubkey, ev.created_at, ev.kind, ev.tags, ev.content, ""⟩
  ⟨ev2.id, ev2.pubkey, ev2.created_at, ev2.kind, ev2.tags, ev2.content, signE ev2 serverPrivateKey⟩

end CryptoUtils

namespace EventValidator

/-- validateEvent from src/src/validators/event.validator.ts: checks the
required fields (JS truthiness), the pubkey regex (64 lowercase hex
characters), the sig regex (128 lowercase hex characters), then asks the
external Schnorr verification (parameter `verify`, whose error case
models a thrown exception, caught by the try block of the source). -/
def validateEvent (verify : NostrEvent → Except String Bool)
    (e : NostrEvent) : VerificationResult :=
  if e.pubkey = "" ∨ e.content = "" ∨ e.sig = "" then
    VerificationResult.failE "Missing required fields"
  else if ¬ isHexString 64 e.pubkey then
    VerificationResult.failE "Invalid pubkey format"
  else if ¬ isHexString 128 e.sig then
    VerificationResult.failE "Invalid signature format"
  else
    match verify e with
    | Except.error _ => VerificationResult.failE "Event validation failed"
    | Except.ok false => VerificationResult.failE "Invalid signature"
    | Except.ok true => VerificationResult.okPub e.pubkey

/-- validateBasicEventFormat from src/src/validators/event.validator.ts:
JS truthiness of kind, created_at, pubkey, id and sig; the dynamic type
checks of the source always succeed on the typed model. -/
def validateBasicEventFormat (e : NostrEvent) : Bool :=
  ¬ (e.kind = 0 ∨ e.created_at = 0 ∨ e.pubkey = "" ∨ e.id = "" ∨ e.sig = "")

/-- validateChallengeEvent from src/src/validators/event.validator.ts:
general validation, kind 22242, presence of a challenge tag, basic
format, recomputed event hash against the provided id, and the Schnorr
signature again.  A thrown exception from the external verification is
caught and yields false. -/
def validateChallengeEvent (sha : String → String)
    (verify : NostrEvent → Except String Bool) (e : NostrEvent) : Bool :=
  if ¬ (validateEvent verify e).success then false
  else if e.kind ≠ 22242 then false
  else if e.tags.find? (fun t => t.head? == some "challenge") = none then false
  else if ¬ validateBasicEventFormat e then false
  else if CryptoUtils.generateEventHash sha e ≠ e.id then false
  else
    match verify e with
    | Except.error _ => false
    | Except.ok b => b

end EventValidator

namespace NostrEventValidator

/-- validateEvent of the class NostrEventValidator in
src/src/validators/event.validator.ts: required fields (JS truthiness),
pubkey, sig and id hex formats, created_at within 300 seconds of the
current time, each tag an array of at least two elements, recomputed
event hash against the id, and finally the external Schnorr check of
the sig against sha256 of the id bytes (parameter `shaId` models that
second hashing step) and the pubkey.  A thrown exception from the
external check is caught by the try block and yields false. -/
def validateEvent (sha : String → String) (shaId : String → String)
    (verifySig : String → String → String → Except String Bool)
    (now : Int) (e : NostrEvent) : Bool :=
  if e.id = "" ∨ e.pubkey = "" ∨ e.sig = "" ∨ e.kind = 0 ∨ e.created_at = 0 then false
  else if ¬ isHexString 64 e.pubkey then false
  else if ¬ isHexString 128 e.sig then false
  else if ¬ isHexString 64 e.id then false
  else if e.created_at > now + 300 ∨ e.created_at < now - 300 then false
  else if ¬ (e.tags.all fun t => 2 ≤ t.length) then false
  else if CryptoUtils.generateEventHash sha e ≠ e.id then false
  else
    match verifySig e.sig (shaId e.id) e.pubkey with
    | Except.error _ => false
    | Except.ok b => b

end NostrEventValidator

namespace NostrEventValidatorMin

/-- validateEvent of the class NostrEventValidator in
src/src/validators/nostr-event.validator.ts: requires id, pubkey and
sig to be present (JS truthiness) and then delegates to the external
verifySignature(sig, id, pubkey); no event hash is recomputed.  A
thrown exception is caught and yields false. -/
def validateEvent (verifySig : String → String → String → Except String Bool)
    (e : NostrEvent) : Bool :=
  if e.id = "" ∨ e.pubkey = "" ∨ e.sig = "" then false
  else
    match verifySig e.sig e.id e.pubkey with
    | Except.error _ => false
    | Except.ok b => b

end NostrEventValidatorMin

namespace JwtUtils

/-- Model of jwt.sign of the external jsonwebtoken library on the
payload containing a pubkey.  Modelled from the spec: JWT library
mechanics are delegated; the token records the payload, iat = now,
exp = now + duration (seconds) and is bound to the secret; signing with
an empty secret throws. -/
def jwtSign (pubkey secret : String) (nowSec durSec : Int) : Jwt :=
  ⟨pubkey, nowSec, nowSec + durSec, secret⟩

/-- Model of jwt.verify of the external jsonwebtoken library.  Modelled
from the spec: verification with a different secret fails, a token is
rejected once the current time has reached exp, and otherwise the
decoded payload is returned. -/
def jwtVerifyLib (t : Jwt) (secret : String) (nowSec : Int) : Except String Jwt :=
  if t.secretTag ≠ secret then Except.error "invalid signature"
  else if t.exp ≤ nowSec then Except.error "jwt expired"
  else Except.ok t

/-- generateJWT from src/src/utils/jwt.utils.ts: jwt.sign of the
payload with the secret and the expiry duration; an error thrown by the
library (empty secret) is logged and rethrown. -/
def generateJWT (pubkey secret : String) (durSec nowSec : Int) : Except String Jwt :=
  if secret = "" then Except.error "secretOrPrivateKey must have a value"
  else Except.ok (jwtSign pubkey secret nowSec durSec)

/-- verifyJWT from src/src/utils/jwt.utils.ts: jwt.verify of the token
with the secret, returning the decoded payload; any library error is
caught and replaced by the error Invalid JWT. -/
def verifyJWT (t : Jwt) (secret : String) (nowSec : Int) : Except String Jwt :=
  match jwtVerifyLib t secret nowSec with
  | Except.ok decoded => Except.ok decoded
  | Except.error _ => Except.error "Invalid JWT"

end JwtUtils

namespace NostrService

/-- A stored challenge row, from the SupabaseChallenge type of
src/src/services/nostr.service.ts. -/
structure SupabaseChallenge where
  id : String
  challenge : String
  created_at : Int
  expires_at : Int
  pubkey : String
deriving Repr, DecidableEq

/-- createChallenge of the Supabase-backed NostrService
(src/src/services/nostr.service.ts): the challenge string is the
configured label (default nostr-auth:) followed by a space and a short
random base-36 string (Math.random().toString(36).substring(7), the
parameter `randPart`), the row id is another such random string, and
expires_at is now plus the floor of eventTimeoutMs / 1000. -/
def createChallenge (chalPre : Option String) (eventTimeoutMs : Int)
    (randId randPart : String) (now : Int) (pubkey : String) : SupabaseChallenge :=
  ⟨randId, (chalPre.getD "nostr-auth:") ++ " " ++ randPart, now,
    now + eventTimeoutMs / 1000, pubkey⟩

/-- The Supabase select eq(pubkey, p).single() call: data is returned
only when exactly one row matches the pubkey, otherwise data is null. -/
def singleByPubkey (rows : List SupabaseChallenge) (p : String) :
    Option SupabaseChallenge :=
  match rows.filter (fun c => c.pubkey = p) with
  | [c] => some c
  | _ => none

/-- The body of verifyChallenge of the Supabase-backed NostrService
inside its try block: validateEvent, then the challenge lookup by the
pubkey of the event, the expiry check against the current time, and the
deletion of the used row by its id.  The parameters `sel` and `del`
model the awaited Supabase select and delete calls, whose error case is
a thrown exception (the delete throws before removing the row). -/
def verifyChallengeTry (verify : NostrEvent → Except String Bool)
    (sel del : Except String Unit) (now : Int)
    (rows : List SupabaseChallenge) (e : NostrEvent) :
    Except String (VerificationResult × List SupabaseChallenge) :=
  let vr := EventValidator.validateEvent verify e
  if ¬ vr.success then
    Except.ok (vr, rows)
  else
    match sel with
    | Except.error s => Except.error s
    | Except.ok _ =>
      match singleByPubkey rows e.pubkey with
      | none => Except.ok (VerificationResult.failE "Challenge not found", rows)
      | some data =>
        if data.expires_at < now then
          Except.ok (VerificationResult.failE "Challenge expired", rows)
        else
          match del with
          | Except.error s => Except.error s
          | Except.ok _ =>
            Except.ok (VerificationResult.okPub e.pubkey,
              rows.filter (fun c => c.id ≠ data.id))

/-- verifyChallenge of the Supabase-backed NostrService
(src/src/services/nostr.service.ts): the try body above with the catch
branch that maps any thrown error to the result Internal verification
error, leaving the stored rows unchanged. -/
def verifyChallenge (verify : NostrEvent → Except String Bool)
    (sel del : Except String Unit) (now : Int)
    (rows : List SupabaseChallenge) (e : NostrEvent) :
    VerificationResult × List SupabaseChallenge :=
  match verifyChallengeTry verify sel del now rows e with
  | Except.ok r => r
  | Except.error _ =>
    (VerificationResult.failE "Internal verification error", rows)

end NostrService

namespace NostrServiceMem

/-- A stored in-memory challenge, from the NostrChallenge type of the
repository: the id, the signed challenge event, and expiresAt in
milliseconds. -/
structure NostrChallenge where
  id : String
  event : NostrEvent
  expiresAt : Int
deriving Repr, DecidableEq

/-- The in-memory state of the NostrService of
src/src/services/nostr.service.ts: the challenges map and the profiles
map, modelled as association lists keyed by challenge id and by
pubkey. -/
structure ServiceState where
  challenges : List (String × NostrChallenge)
  profiles : List (String × NostrProfile)
deriving Repr, DecidableEq

/-- generateToken of the in-memory NostrService: throws when the JWT
secret is missing, otherwise jwt.sign of the pubkey with the configured
expiry; the issued-at second is the floor of the current millisecond
time over 1000. -/
def generateToken (jwtSecret : String) (jwtExpSec nowMs : Int)
    (pubkey : String) : Except String Jwt :=
  if jwtSecret = "" then Except.error "JWT secret is required"
  else Except.ok (JwtUtils.jwtSign pubkey jwtSecret (nowMs / 1000) jwtExpSec)

/-- getOrCreateProfile of the in-memory NostrService: returns the cached
profile for the pubkey or creates and stores a basic one. -/
def getOrCreateProfile (profiles : List (String × NostrProfile))
    (pubkey : String) : NostrProfile × List (String × NostrProfile) :=
  match profiles.lookup pubkey with
  | some p => (p, profiles)
  | none =>
    let p : NostrProfile := ⟨pubkey, some ("nostr:" ++ pubkey.take 8)⟩
    (p, (pubkey, p) :: profiles)

/-- verifyChallenge of the in-memory NostrService
(src/src/services/nostr.service.ts): looks the challenge up by its id,
validates the signed event with the minimal validator of
nostr-event.validator.ts, compares the event content with
nostr:auth: followed by the challenge id, generates a JWT and a
profile.  The current time in milliseconds is used only for the
issued-at claim of the token; the challenges map is never written.  A
thrown error (missing JWT secret) is caught and yields the message
Verification failed. -/
def verifyChallenge (verifySig : String → String → String → Except String Bool)
    (jwtSecret : String) (jwtExpSec nowMs : Int) (st : ServiceState)
    (challengeId : String) (signedEvent : NostrEvent) :
    VerificationResult × ServiceState :=
  if st.challenges.lookup challengeId = none then
    (VerificationResult.failM "Challenge not found or expired", st)
  else
    if ¬ NostrEventValidatorMin.validateEvent verifySig signedEvent then
      (VerificationResult.failM "Invalid signature", st)
    else if signedEvent.content ≠ "nostr:auth:" ++ challengeId then
      (VerificationResult.failM "Challenge mismatch", st)
    else
      match generateToken jwtSecret jwtExpSec nowMs signedEvent.pubkey with
      | Except.error _ => (VerificationResult.failM "Verification failed", st)
      | Except.ok token =>
        let pr := getOrCreateProfile st.profiles signedEvent.pubkey
        (⟨true, none, none, none, some token, some pr.1⟩, ⟨st.challenges, pr.2⟩)

end NostrServiceMem

/-! ## Helper lemmas -/

theorem failE_success (s : String) : (VerificationResult.failE s).success = false := rfl

theorem failM_success (s : String) : (VerificationResult.failM s).success = false := rfl

theorem okPub_success (p : String) : (VerificationResult.okPub p).success = true := rfl

theorem isHexString_length {n : Nat} {s : String} (h : isHexString n s = true) :
    s.length = n := by
  simp only [isHexString, Bool.and_eq_true, beq_iff_eq] at h
  exact h.1

theorem isHexString_ne_empty {n : Nat} {s : String} (hn : n ≠ 0)
    (h : isHexString n s = true) : s ≠ "" := by
  intro he
  apply hn
  rw [← isHexString_length h, he]
  rfl

/-- Inversion for EventValidator.validateEvent: a successful result
means every format guard passed and the external check returned true. -/
theorem validateEvent_success_inv {verify : NostrEvent → Except String Bool}
    {e : NostrEvent} (h : (EventValidator.validateEvent verify e).success = true) :
    e.content ≠ "" ∧ isHexString 64 e.pubkey = true ∧ isHexString 128 e.sig = true ∧
      verify e = Except.ok true ∧
      EventValidator.validateEvent verify e = VerificationResult.okPub e.pubkey := by
  unfold EventValidator.validateEvent at h ⊢
  split_ifs at h ⊢ with h1 h2 h3
  any_goals simp [VerificationResult.failE] at h
  push_neg at h1
  cases hv : verify e with
  | error s =>
    rw [hv] at h
    simp [VerificationResult.failE] at h
  | ok b =>
    cases b
    · rw [hv] at h
      simp [VerificationResult.failE] at h
    · exact ⟨h1.2.1, h2, h3, rfl, rfl⟩

/-! ## Claims -/

/-- C4: for every event whose signature does not verify against the
declared pubkey (the external Schnorr check returns false), validateEvent
of event.validator.ts returns a failure result; when the event is
otherwise well-formed the failure is exactly Invalid signature, and no
event with a non-verifying signature ever yields success. -/
theorem c4_invalid_signature_rejected
    (verify : NostrEvent → Except String Bool) (e : NostrEvent)
    (hv : verify e = Except.ok false) :
    (EventValidator.validateEvent verify e).success = false ∧
    (isHexString 64 e.pubkey = true → isHexString 128 e.sig = true →
      e.content ≠ "" →
      EventValidator.validateEvent verify e
        = VerificationResult.failE "Invalid signature") := by
  constructor
  · rcases hs : (EventValidator.validateEvent verify e).success with _ | _
    · rfl
    · rcases validateEvent_success_inv hs with ⟨-, -, -, hok, -⟩
      rw [hv] at hok
      cases hok
  · intro hpk hsg hc
    unfold EventValidator.validateEvent
    rw [if_neg, if_neg, if_neg, hv]
    · simp [hsg]
    · simp [hpk]
    · push_neg
      exact ⟨isHexString_ne_empty (by decide) hpk, hc,
        isHexString_ne_empty (by decide) hsg⟩

/-- C4 witness: a concrete well-formed event whose signature check
returns false is rejected with Invalid signature. -/
theorem c4_invalid_signature_rejected_witness :
    (EventValidator.validateEvent (fun _ => Except.ok false)
      ⟨"", String.mk (List.replicate 64 'a'), 1, 22242, [],
        "hello", String.mk (List.replicate 128 'b')⟩).success = false := by
  exact (c4_invalid_signature_rejected (fun _ => Except.ok false)
    ⟨"", String.mk (List.replicate 64 'a'), 1, 22242, [],
      "hello", String.mk (List.replicate 128 'b')⟩ rfl).1

/-- C9: validateEvent of event.validator.ts accepts only lowercase hex
encodings: whenever the pubkey is not exactly 64 lowercase hex
characters or the sig is not exactly 128 lowercase hex characters, the
result is a failure, and the result does not depend on the cryptographic
verification function at all (no cryptographic check is consulted). -/
theorem c9_hex_format_gate (verify : NostrEvent → Except String Bool)
    (e : NostrEvent)
    (h : isHexString 64 e.pubkey = false ∨ isHexString 128 e.sig = false) :
    (EventValidator.validateEvent verify e).success = false ∧
    ∀ verify2 : NostrEvent → Except String Bool,
      EventValidator.validateEvent verify e = EventValidator.validateEvent verify2 e := by
  constructor
  · rcases hs : (EventValidator.validateEvent verify e).success with _ | _
    · rfl
    · rcases validateEvent_success_inv hs with ⟨-, hpk, hsg, -, -⟩
      rcases h with h | h
      · rw [hpk] at h
        cases h
      · rw [hsg] at h
        cases h
  · intro verify2
    unfold EventValidator.validateEvent
    split_ifs with h1 h2 h3
    any_goals rfl
    exfalso
    rcases h with h | h
    · simp [h] at h2
    · simp [h] at h3

/-- C9 witness: an uppercase-hex pubkey is rejected independently of the
cryptographic check. -/
theorem c9_hex_format_gate_witness :
    (EventValidator.validateEvent (fun _ => Except.ok true)
      ⟨"", String.mk (List.replicate 64 'A'), 1, 22242, [],
        "hello", String.mk (List.replicate 128 'b')⟩).success = false := by
  exact (c9_hex_format_gate (fun _ => Except.ok true)
    ⟨"", String.mk (List.replicate 64 'A'), 1, 22242, [],
      "hello", String.mk (List.replicate 128 'b')⟩
    (Or.inl (by decide))).1

/-- C8: validateEvent of the class NostrEventValidator in
event.validator.ts enforces the timestamp bound and the tag shape: an
event whose created_at differs from the current time by more than 300
seconds, or that contains a tag with fewer than two elements, is always
rejected. -/
theorem c8_timestamp_and_tag_shape (sha shaId : String → String)
    (verifySig : String → String → String → Except String Bool)
    (now : Int) (e : NostrEvent)
    (h : e.created_at > now + 300 ∨ e.created_at < now - 300 ∨
      ∃ t ∈ e.tags, t.length < 2) :
    NostrEventValidator.validateEvent sha shaId verifySig now e = false := by
  unfold NostrEventValidator.validateEvent
  split_ifs with h1 h2 h3 h4 h5 h6 h7
  any_goals rfl
  exfalso
  rcases h with h | h | ⟨t, ht, hlen⟩
  · exact h5 (Or.inl h)
  · exact h5 (Or.inr h)
  · push_neg at h6
    rw [List.all_eq_true] at h6
    have h8 := h6 t ht
    simp only [decide_eq_true_eq] at h8
    omega

/-- C8 witness: a concrete event timestamped 5000 is rejected at current
time 1000 (skew far beyond 300 seconds). -/
theorem c8_timestamp_and_tag_shape_witness :
    NostrEventValidator.validateEvent (fun _ => "") (fun _ => "")
      (fun _ _ _ => Except.ok true) 1000
      ⟨"i", "p", 5000, 22242, [["challenge", "x"]], "c", "s"⟩ = false :=
  c8_timestamp_and_tag_shape (fun _ => "") (fun _ => "")
    (fun _ _ _ => Except.ok true) 1000
    ⟨"i", "p", 5000, 22242, [["challenge", "x"]], "c", "s"⟩
    (Or.inl (by decide))

/-- C3 (amended): validateChallengeEvent of event.validator.ts
recomputes the event hash from the canonical serialization of
(pubkey, created_at, kind, tags, content) and compares it to the
provided id, so every event whose recomputed hash differs from its id
is rejected. -/
theorem c3_hash_mismatch_amended (sha : String → String)
    (verify : NostrEvent → Except String Bool) (e : NostrEvent)
    (h : CryptoUtils.generateEventHash sha e ≠ e.id) :
    EventValidator.validateChallengeEvent sha verify e = false := by
  unfold EventValidator.validateChallengeEvent
  split_ifs with h1 h2 h3 h4
  any_goals rfl

/-- C3 witness: a concrete event whose stored id differs from the
recomputed hash fails challenge validation even though every other
check (including the signature) passes. -/
theorem c3_hash_mismatch_amended_witness :
    EventValidator.validateChallengeEvent (fun _ => "aa")
      (fun _ => Except.ok true)
      ⟨"bb", "pk", 7, 22242, [["challenge", "x"]], "c", "sg"⟩ = false :=
  c3_hash_mismatch_amended (fun _ => "aa") (fun _ => Except.ok true)
    ⟨"bb", "pk", 7, 22242, [["challenge", "x"]], "c", "sg"⟩ (by decide)

/-- C3 counterexample: the claim fails on
NostrEventValidator.validateEvent of nostr-event.validator.ts (the
validator used by the in-memory verifyChallenge): it never recomputes
the event hash, it only verifies the signature against the provided id,
so a concrete event whose recomputed hash (here a hash function
returning a fixed digest distinct from the stored id) differs from its
id still validates successfully. -/
theorem c3_no_hash_recompute_counterexample :
    CryptoUtils.generateEventHash (fun _ => "aa")
        ⟨"bb", "pk", 7, 1, [["t", "v"]], "tampered", "sg"⟩
      ≠ (⟨"bb", "pk", 7, 1, [["t", "v"]], "tampered", "sg"⟩ : NostrEvent).id
    ∧ NostrEventValidatorMin.validateEvent (fun _ _ _ => Except.ok true)
        ⟨"bb", "pk", 7, 1, [["t", "v"]], "tampered", "sg"⟩ = true := by
  constructor
  · decide
  · rfl

/-- Deleting the row found by singleByPubkey removes every row with that
pubkey: the select required exactly one matching row, and the delete by
its id removes it, so a later lookup by the same pubkey finds nothing. -/
theorem singleByPubkey_delete {rows : List NostrService.SupabaseChallenge}
    {p : String} {c : NostrService.SupabaseChallenge}
    (h : NostrService.singleByPubkey rows p = some c) :
    NostrService.singleByPubkey (rows.filter (fun x => x.id ≠ c.id)) p = none := by
  unfold NostrService.singleByPubkey at h ⊢
  have hfil : rows.filter (fun x => decide (x.pubkey = p)) = [c] := by
    rcases hx : rows.filter (fun x => decide (x.pubkey = p)) with - | ⟨a, l⟩
    · rw [hx] at h
      cases h
    · rw [hx] at h
      cases l with
      | nil =>
        cases h
        exact hx
      | cons b l2 => cases h
  have honly : ∀ x ∈ rows, x.pubkey = p → x = c := by
    intro x hx hp
    have hmem : x ∈ rows.filter (fun x => decide (x.pubkey = p)) := by
      rw [List.mem_filter]
      exact ⟨hx, by simpa using hp⟩
    rw [hfil] at hmem
    simpa using hmem
  have hnil : (rows.filter (fun x => x.id ≠ c.id)).filter
      (fun x => decide (x.pubkey = p)) = [] := by
    rw [List.filter_eq_nil_iff]
    intro a ha
    rw [List.mem_filter] at ha
    simp only [decide_eq_true_eq] at ha ⊢
    intro hp
    have := honly a ha.1 hp
    subst this
    simp at ha
  rw [hnil]

/-- C1 (amended): in the Supabase-backed service a successful
verification deletes the stored challenge row, so a second
verifyChallenge for the same event (with a passing event validation and
a live database select) fails with Challenge not found and leaves the
state unchanged. -/
theorem c1_supabase_challenge_consumed_amended
    (verify : NostrEvent → Except String Bool) (sel del : Except String Unit)
    (now : Int) (rows rows2 : List NostrService.SupabaseChallenge)
    (e : NostrEvent) (r : VerificationResult)
    (hcall : NostrService.verifyChallenge verify sel del now rows e = (r, rows2))
    (hs : r.success = true)
    (verify2 : NostrEvent → Except String Bool) (del2 : Except String Unit)
    (now2 : Int)
    (hv2 : (EventValidator.validateEvent verify2 e).success = true) :
    NostrService.verifyChallenge verify2 (Except.ok ()) del2 now2 rows2 e
      = (VerificationResult.failE "Challenge not found", rows2) := by
  unfold NostrService.verifyChallenge NostrService.verifyChallengeTry at hcall
  dsimp only at hcall
  split_ifs at hcall with h1
  case neg =>
    dsimp only at hcall
    rw [Prod.mk.injEq] at hcall
    rw [← hcall.1] at hs
    exact absurd hs h1
  case pos =>
    rcases hsel : sel with s | u
    all_goals rw [hsel] at hcall
    all_goals dsimp only at hcall
    · rw [Prod.mk.injEq] at hcall
      rw [← hcall.1] at hs
      simp [VerificationResult.failE] at hs
    · rcases hsb : NostrService.singleByPubkey rows e.pubkey with - | data
      all_goals rw [hsb] at hcall
      all_goals dsimp only at hcall
      · rw [Prod.mk.injEq] at hcall
        rw [← hcall.1] at hs
        simp [VerificationResult.failE] at hs
      · split_ifs at hcall with h2
        case pos =>
          dsimp only at hcall
          rw [Prod.mk.injEq] at hcall
          rw [← hcall.1] at hs
          simp [VerificationResult.failE] at hs
        case neg =>
          rcases hdel : del with s2 | u2
          all_goals rw [hdel] at hcall
          all_goals dsimp only at hcall
          · rw [Prod.mk.injEq] at hcall
            rw [← hcall.1] at hs
            simp [VerificationResult.failE] at hs
          · rw [Prod.mk.injEq] at hcall
            have hrows2 : rows2 = rows.filter (fun c => c.id ≠ data.id) :=
              hcall.2.symm
            have hnone := singleByPubkey_delete hsb
            unfold NostrService.verifyChallenge NostrService.verifyChallengeTry
            dsimp only
            rw [if_neg (by simp [hv2]), hrows2, hnone]

/-- C1 amended witness: a concrete challenge row is consumed by a
successful verification and the immediate re-submission of the same
event fails with Challenge not found. -/
theorem c1_supabase_challenge_consumed_amended_witness :
    NostrService.verifyChallenge (fun _ => Except.ok true) (Except.ok ())
      (Except.ok ()) 6 []
      ⟨"i", String.mk (List.replicate 64 'a'), 1, 22242, [], "hello",
        String.mk (List.replicate 128 'b')⟩
      = (VerificationResult.failE "Challenge not found", []) :=
  c1_supabase_challenge_consumed_amended (fun _ => Except.ok true)
    (Except.ok ()) (Except.ok ()) 5
    [⟨"rid", "nostr-auth: q1", 0, 1000, String.mk (List.replicate 64 'a')⟩] []
    ⟨"i", String.mk (List.replicate 64 'a'), 1, 22242, [], "hello",
      String.mk (List.replicate 128 'b')⟩
    (VerificationResult.okPub (String.mk (List.replicate 64 'a')))
    rfl rfl (fun _ => Except.ok true) (Except.ok ()) 6 rfl

/-- C1 counterexample: the claim fails on the in-memory
NostrService.verifyChallenge, which never removes a challenge from its
map: a concrete challenge is successfully verified twice in a row, the
stored challenges being unchanged by the first success. -/
theorem c1_replay_counterexample :
    (NostrServiceMem.verifyChallenge (fun _ _ _ => Except.ok true) "s" 1 2
      ⟨[("k", ⟨"k", ⟨"a", "b", 1, 22242, [], "nostr:auth:k", "c"⟩, 5⟩)], []⟩
      "k" ⟨"a", "b", 1, 22242, [], "nostr:auth:k", "c"⟩).1.success = true
    ∧ (NostrServiceMem.verifyChallenge (fun _ _ _ => Except.ok true) "s" 1 2
      ⟨[("k", ⟨"k", ⟨"a", "b", 1, 22242, [], "nostr:auth:k", "c"⟩, 5⟩)], []⟩
      "k" ⟨"a", "b", 1, 22242, [], "nostr:auth:k", "c"⟩).2.challenges
      = [("k", ⟨"k", ⟨"a", "b", 1, 22242, [], "nostr:auth:k", "c"⟩, 5⟩)]
    ∧ (NostrServiceMem.verifyChallenge (fun _ _ _ => Except.ok true) "s" 1 2
      ((NostrServiceMem.verifyChallenge (fun _ _ _ => Except.ok true) "s" 1 2
        ⟨[("k", ⟨"k", ⟨"a", "b", 1, 22242, [], "nostr:auth:k", "c"⟩, 5⟩)], []⟩
        "k" ⟨"a", "b", 1, 22242, [], "nostr:auth:k", "c"⟩).2)
      "k" ⟨"a", "b", 1, 22242, [], "nostr:auth:k", "c"⟩).1.success = true := by
  refine ⟨rfl, rfl, rfl⟩

/-- C2 (amended): in the Supabase-backed service a stored challenge
whose expires_at lies strictly before the current time makes
verifyChallenge fail with Challenge expired (given a passing event
validation and a live database select), leaving the stored rows
unchanged; it never yields success. -/
theorem c2_supabase_expiry_amended (verify : NostrEvent → Except String Bool)
    (del : Except String Unit) (now : Int)
    (rows : List NostrService.SupabaseChallenge) (e : NostrEvent)
    (data : NostrService.SupabaseChallenge)
    (hv : (EventValidator.validateEvent verify e).success = true)
    (hsb : NostrService.singleByPubkey rows e.pubkey = some data)
    (hexp : data.expires_at < now) :
    NostrService.verifyChallenge verify (Except.ok ()) del now rows e
      = (VerificationResult.failE "Challenge expired", rows) := by
  unfold NostrService.verifyChallenge NostrService.verifyChallengeTry
  dsimp only
  rw [if_neg (by simp [hv]), hsb]
  dsimp only
  rw [if_pos hexp]

/-- C2 amended witness: a concrete expired challenge row yields the
Challenge expired failure. -/
theorem c2_supabase_expiry_amended_witness :
    NostrService.verifyChallenge (fun _ => Except.ok true) (Except.ok ())
      (Except.ok ()) 2000
      [⟨"rid", "nostr-auth: q1", 0, 1000, String.mk (List.replicate 64 'a')⟩]
      ⟨"i", String.mk (List.replicate 64 'a'), 1, 22242, [], "hello",
        String.mk (List.replicate 128 'b')⟩
      = (VerificationResult.failE "Challenge expired",
        [⟨"rid", "nostr-auth: q1", 0, 1000, String.mk (List.replicate 64 'a')⟩]) :=
  c2_supabase_expiry_amended (fun _ => Except.ok true) (Except.ok ()) 2000
    [⟨"rid", "nostr-auth: q1", 0, 1000, String.mk (List.replicate 64 'a')⟩]
    ⟨"i", String.mk (List.replicate 64 'a'), 1, 22242, [], "hello",
      String.mk (List.replicate 128 'b')⟩
    ⟨"rid", "nostr-auth: q1", 0, 1000, String.mk (List.replicate 64 'a')⟩
    rfl rfl (by decide)

/-- C2 counterexample: the claim fails on the in-memory
NostrService.verifyChallenge, which contains no expiry check at all
(expired challenges are only purged when createChallenge next runs): a
concrete challenge whose expiresAt (5000 ms) lies strictly before the
current time (1000000 ms) is still verified successfully. -/
theorem c2_expired_accept_counterexample :
    (⟨"k", ⟨"a", "b", 1, 22242, [], "nostr:auth:k", "c"⟩, 5000⟩
        : NostrServiceMem.NostrChallenge).expiresAt < 1000000
    ∧ (NostrServiceMem.verifyChallenge (fun _ _ _ => Except.ok true) "s" 3600
      1000000
      ⟨[("k", ⟨"k", ⟨"a", "b", 1, 22242, [], "nostr:auth:k", "c"⟩, 5000⟩)], []⟩
      "k" ⟨"a", "b", 1, 22242, [], "nostr:auth:k", "c"⟩).1.success = true := by
  refine ⟨by decide, rfl⟩

/-- C5 (amended): the in-memory verifyChallenge rejects every signed
event whose content differs from the expected challenge binding
(nostr:auth: followed by the challenge id); it never succeeds on such an
event. -/
theorem c5_mem_challenge_mismatch_amended
    (verifySig : String → String → String → Except String Bool)
    (jwtSecret : String) (jwtExpSec nowMs : Int)
    (st : NostrServiceMem.ServiceState) (challengeId : String)
    (e : NostrEvent) (h : e.content ≠ "nostr:auth:" ++ challengeId) :
    (NostrServiceMem.verifyChallenge verifySig jwtSecret jwtExpSec nowMs st
      challengeId e).1.success = false := by
  unfold NostrServiceMem.verifyChallenge
  split_ifs with h1 h2
  any_goals rfl

/-- C5 amended witness: a concrete event carrying the wrong challenge
content is rejected by the in-memory verifyChallenge. -/
theorem c5_mem_challenge_mismatch_amended_witness :
    (NostrServiceMem.verifyChallenge (fun _ _ _ => Except.ok true) "s" 1 2
      ⟨[("k", ⟨"k", ⟨"a", "b", 1, 22242, [], "nostr:auth:k", "c"⟩, 5⟩)], []⟩
      "k" ⟨"a", "b", 1, 22242, [], "nostr:auth:other", "c"⟩).1.success = false :=
  c5_mem_challenge_mismatch_amended (fun _ _ _ => Except.ok true) "s" 1 2
    ⟨[("k", ⟨"k", ⟨"a", "b", 1, 22242, [], "nostr:auth:k", "c"⟩, 5⟩)], []⟩
    "k" ⟨"a", "b", 1, 22242, [], "nostr:auth:other", "c"⟩ (by decide)

/-- C5 counterexample: the claim fails on the Supabase-backed
verifyChallenge: it looks the challenge up by the event pubkey only and
never compares the challenge value carried by the event with the issued
one, so a concrete event whose content differs from the issued
challenge string and that carries no challenge tag at all is verified
successfully. -/
theorem c5_supabase_ignores_challenge_value_counterexample :
    (NostrService.verifyChallenge (fun _ => Except.ok true) (Except.ok ())
      (Except.ok ()) 10
      [⟨"rid", "nostr-auth: q1w2", 0, 1000000, String.mk (List.replicate 64 'a')⟩]
      ⟨"i", String.mk (List.replicate 64 'a'), 5, 22242, [], "different content",
        String.mk (List.replicate 128 'b')⟩).1.success = true
    ∧ ("different content"
        ≠ (⟨"rid", "nostr-auth: q1w2", 0, 1000000,
            String.mk (List.replicate 64 'a')⟩
          : NostrService.SupabaseChallenge).challenge)
    ∧ (⟨"i", String.mk (List.replicate 64 'a'), 5, 22242, [], "different content",
        String.mk (List.replicate 128 'b')⟩ : NostrEvent).tags = [] := by
  refine ⟨rfl, by decide, rfl⟩

/-- C6: the JWT round-trip: for every pubkey, nonempty secret and
expiry duration, the token issued by generateJWT verifies under the
same secret at any time before expiry, and the decoded payload carries
exactly the pubkey that was signed. -/
theorem c6_jwt_roundtrip (pk secret : String) (durSec nowSec now2 : Int)
    (hsec : secret ≠ "") (hexp : now2 < nowSec + durSec) :
    ∃ t : Jwt, JwtUtils.generateJWT pk secret durSec nowSec = Except.ok t
      ∧ JwtUtils.verifyJWT t secret now2 = Except.ok t
      ∧ t.pubkey = pk := by
  refine ⟨JwtUtils.jwtSign pk secret nowSec durSec, ?_, ?_, rfl⟩
  · unfold JwtUtils.generateJWT
    rw [if_neg hsec]
  · unfold JwtUtils.verifyJWT JwtUtils.jwtVerifyLib JwtUtils.jwtSign
    rw [if_neg (by simp), if_neg (by simp only [not_le]; omega)]

/-- C6 witness: a concrete token for a concrete pubkey and secret
round-trips before its expiry. -/
theorem c6_jwt_roundtrip_witness :
    ∃ t : Jwt, JwtUtils.generateJWT "pk1" "topsecret" 3600 100 = Except.ok t
      ∧ JwtUtils.verifyJWT t "topsecret" 200 = Except.ok t
      ∧ t.pubkey = "pk1" :=
  c6_jwt_roundtrip "pk1" "topsecret" 3600 100 200 (by decide) (by decide)

/-- Length of the hex rendering: each byte contributes exactly two
characters. -/
theorem bytesToHexChars_length (bs : List Nat) :
    (CryptoUtils.bytesToHexChars bs).length = 2 * bs.length := by
  induction bs with
  | nil => rfl
  | cons b bs ih =>
    unfold CryptoUtils.bytesToHexChars CryptoUtils.byteToHexChars
    simp [ih]
    omega

/-- A nibble renders to a lowercase hex digit. -/
theorem hexDigitChar_isHex (n : Nat) (h : n < 16) :
    isHexDigit (CryptoUtils.hexDigitChar n) = true := by
  interval_cases n <;> decide

/-- Every character of the hex rendering is a lowercase hex digit. -/
theorem bytesToHexChars_all_hex (bs : List Nat) :
    (CryptoUtils.bytesToHexChars bs).all isHexDigit = true := by
  induction bs with
  | nil => rfl
  | cons b bs ih =>
    unfold CryptoUtils.bytesToHexChars CryptoUtils.byteToHexChars
    simp only [List.cons_append, List.nil_append, List.all_cons, ih,
      Bool.and_true]
    rw [hexDigitChar_isHex _ (Nat.mod_lt _ (by decide)),
      hexDigitChar_isHex _ (Nat.mod_lt _ (by decide))]
    rfl

/-- C7 (amended): the Supabase createChallenge sets created_at to the
current time and expires_at to that time plus the floor of the
configured eventTimeoutMs over 1000; the 32 random bytes rendered as a
64-character lowercase hex string appear only in the challenge tag of
the event built by generateChallengeServer. -/
theorem c7_challenge_amended (chalPre : Option String) (tmo : Int)
    (rid rp : String) (now : Int) (pk : String) (sha : String → String)
    (signE : NostrEvent → String → String) (getPub : String → String)
    (spk cpk : String) (bs : List Nat) (now2 : Int)
    (hlen : bs.length = 32) :
    (NostrService.createChallenge chalPre tmo rid rp now pk).expires_at
        = now + tmo / 1000
    ∧ (NostrService.createChallenge chalPre tmo rid rp now pk).created_at = now
    ∧ (CryptoUtils.generateChallengeServer sha signE getPub spk cpk bs now2).tags
        = [["p", cpk], ["relay", "wss://relay.damus.io"],
            ["challenge", CryptoUtils.bytesToHex bs]]
    ∧ (CryptoUtils.bytesToHex bs).length = 64
    ∧ (CryptoUtils.bytesToHex bs).data.all isHexDigit = true := by
  refine ⟨rfl, rfl, rfl, ?_, ?_⟩
  · show (CryptoUtils.bytesToHexChars bs).length = 64
    rw [bytesToHexChars_length, hlen]
  · exact bytesToHexChars_all_hex bs

/-- C7 amended witness: with 32 concrete bytes the server challenge tag
value is a 64-character lowercase hex string, and a concrete Supabase
challenge expires exactly eventTimeoutMs / 1000 seconds after its
creation. -/
theorem c7_challenge_amended_witness :
    (NostrService.createChallenge none 300000 "k3x" "q1w2" 1700000000 "pk").expires_at
        = 1700000000 + 300000 / 1000
    ∧ (NostrService.createChallenge none 300000 "k3x" "q1w2" 1700000000 "pk").created_at
        = 1700000000
    ∧ (CryptoUtils.generateChallengeServer (fun _ => "h") (fun _ _ => "sg")
        (fun _ => "spub") "spriv" "cpub" (List.replicate 32 255) 7).tags
        = [["p", "cpub"], ["relay", "wss://relay.damus.io"],
            ["challenge", CryptoUtils.bytesToHex (List.replicate 32 255)]]
    ∧ (CryptoUtils.bytesToHex (List.replicate 32 255)).length = 64
    ∧ (CryptoUtils.bytesToHex (List.replicate 32 255)).data.all isHexDigit = true :=
  c7_challenge_amended none 300000 "k3x" "q1w2" 1700000000 "pk" (fun _ => "h")
    (fun _ _ => "sg") (fun _ => "spub") "spriv" "cpub" (List.replicate 32 255) 7
    (by decide)

/-- C7 counterexample: the claim fails on the Supabase createChallenge:
with the default configuration and a concrete random part, the created
challenge string is the label nostr-auth: followed by a space and the
short base-36 value, which is not a 64-character hex rendering of 32
random bytes. -/
theorem c7_challenge_format_counterexample :
    (NostrService.createChallenge none 300000 "k3x" "q1w2e3" 1700000000 "pk").challenge
        = "nostr-auth: q1w2e3"
    ∧ isHexString 64
        (NostrService.createChallenge none 300000 "k3x" "q1w2e3" 1700000000 "pk").challenge
        = false := by
  refine ⟨rfl, by decide⟩

/-- A failing validateEvent always reports an error string. -/
theorem validateEvent_failure_error {verify : NostrEvent → Except String Bool}
    {e : NostrEvent}
    (h : (EventValidator.validateEvent verify e).success = false) :
    (EventValidator.validateEvent verify e).error.isSome = true := by
  unfold EventValidator.validateEvent at h ⊢
  split_ifs at h ⊢
  any_goals rfl
  cases hv : verify e with
  | error s => rfl
  | ok b =>
    cases b
    · rfl
    · rw [hv] at h
      simp [VerificationResult.okPub] at h

/-- C10: verifyChallenge of the Supabase-backed service and
validateEvent of event.validator.ts are total at the public interface:
whatever the outcomes of the external calls (including thrown errors),
every failure is returned as a result with success false and an error
string, and the stored challenge rows are unchanged on every failure;
in particular a thrown signature verification is caught by validateEvent
and reported as a failure result. -/
theorem c10_total_interface (verify : NostrEvent → Except String Bool)
    (sel del : Except String Unit) (now : Int)
    (rows : List NostrService.SupabaseChallenge) (e : NostrEvent) :
    ((NostrService.verifyChallenge verify sel del now rows e).1.success = false →
      (NostrService.verifyChallenge verify sel del now rows e).2 = rows
      ∧ (NostrService.verifyChallenge verify sel del now rows e).1.error.isSome
          = true)
    ∧ (∀ s : String, verify e = Except.error s →
        (EventValidator.validateEvent verify e).success = false
        ∧ (EventValidator.validateEvent verify e).error.isSome = true) := by
  constructor
  · intro hfail
    by_cases hvr : (EventValidator.validateEvent verify e).success = true
    · unfold NostrService.verifyChallenge NostrService.verifyChallengeTry at hfail ⊢
      dsimp only at hfail ⊢
      rw [if_neg (by simp [hvr])] at hfail ⊢
      rcases sel with s | u
      all_goals dsimp only at hfail ⊢
      · exact ⟨rfl, rfl⟩
      · rcases hsb : NostrService.singleByPubkey rows e.pubkey with - | data
        · dsimp only
          exact ⟨rfl, rfl⟩
        · rw [hsb] at hfail
          dsimp only at hfail
          dsimp only
          by_cases h2 : data.expires_at < now
          · rw [if_pos h2]
            dsimp only
            exact ⟨rfl, rfl⟩
          · rw [if_neg h2] at hfail ⊢
            rcases del with s2 | u2
            all_goals dsimp only at hfail ⊢
            · exact ⟨rfl, rfl⟩
            · simp [VerificationResult.okPub] at hfail
    · unfold NostrService.verifyChallenge NostrService.verifyChallengeTry at hfail ⊢
      dsimp only at hfail ⊢
      rw [if_pos hvr] at hfail ⊢
      dsimp only at hfail ⊢
      exact ⟨rfl, validateEvent_failure_error (by simpa using hvr)⟩
  · intro s hv
    unfold EventValidator.validateEvent
    split_ifs
    any_goals rw [hv]
    all_goals exact ⟨rfl, rfl⟩

/-- C10 witness: a concrete thrown signature verification is caught:
the Supabase verifyChallenge leaves the concrete store unchanged and
validateEvent reports the failure as a result value. -/
theorem c10_total_interface_witness :
    (NostrService.verifyChallenge (fun _ => Except.error "boom") (Except.ok ())
      (Except.ok ()) 0 [] ⟨"i", "p", 1, 1, [], "c", "s"⟩).2 = []
    ∧ (EventValidator.validateEvent (fun _ => Except.error "boom")
        ⟨"i", "p", 1, 1, [], "c", "s"⟩).success = false := by
  refine ⟨?_, ?_⟩
  · exact ((c10_total_interface (fun _ => Except.error "boom") (Except.ok ())
      (Except.ok ()) 0 [] ⟨"i", "p", 1, 1, [], "c", "s"⟩).1 rfl).1
  · exact ((c10_total_interface (fun _ => Except.error "boom") (Except.ok ())
      (Except.ok ()) 0 [] ⟨"i", "p", 1, 1, [], "c", "s"⟩).2 "boom" rfl).1

end NostrAuth
